import Mathlib

/-!
Verification development for the netex-siri2lc converter.

The Python modules netex2lc/xml_utils.py, netex2lc/uri.py,
netex2lc/netex_parser.py, siri2lc/siri_vm_parser.py and
siri2lc/siri_sx_parser.py are shallowly embedded below.  XML documents
are modelled as a tree of elements (tag, attributes, text, children),
matching the navigable-tree interface of lxml / xml.etree that the code
uses after parsing; file handling and the XML parser itself are outside
the modelled core.  Python strings are Lean strings, Python None is
Option.none, and Python truthiness of an optional string (None and the
empty string are falsy) is made explicit.  All operations are computable
so that concrete witnesses evaluate by decide or rfl.
-/

/-- Truthiness of a Python optional string: None and the empty string are
falsy, every other string is truthy. -/
def pyTruthy : Option String → Bool
  | none => false
  | some s => s ≠ ""

/-- The Python expression a or b on optional strings: yields a when a is
truthy, otherwise b. -/
def pyOrStr (a b : Option String) : Option String :=
  if pyTruthy a then a else b

/-- Python str.strip with no argument: remove whitespace from both ends. -/
def pyStrip (s : String) : String :=
  ⟨((s.data.dropWhile Char.isWhitespace).reverse.dropWhile Char.isWhitespace).reverse⟩

/-- Python str.lower restricted to ASCII letters, which is all the parsers
compare (the literal is the ASCII word true). -/
def pyLower (s : String) : String :=
  ⟨s.data.map Char.toLower⟩

/-- Python str.isdigit restricted to ASCII digits (the code feeds the
result to int, which only accepts ASCII digits anyway). -/
def pyIsDigit (s : String) : Bool :=
  s ≠ "" && s.data.all Char.isDigit

/-- Numeric value of a string of ASCII digits, as computed by Python int
on a string accepted by isdigit. -/
def digitsToNat (s : String) : Nat :=
  s.data.foldl (fun acc c => 10 * acc + (c.toNat - '0'.toNat)) 0

/-- Python str.replace for a single-character needle: every occurrence of
the character is replaced by the given string (the code only replaces the
single character Z). -/
def pyReplaceChar (s : String) (needle : Char) (repl : String) : String :=
  ⟨s.data.flatMap (fun c => if c = needle then repl.data else [c])⟩

/-- Code-point lexicographic order on character lists, as Python compares
strings. -/
def lexLe : List Char → List Char → Bool
  | [], _ => true
  | _ :: _, [] => false
  | x :: xs, y :: ys => if x = y then lexLe xs ys else decide (x < y)

/-- Python string comparison a <= b (code-point lexicographic). -/
def pyStrLe (a b : String) : Bool :=
  lexLe a.data b.data

/-- Acceptance test for Python float(s): optional surrounding whitespace,
an optional sign, and either an infinity or nan spelling or a decimal
literal with optional fraction and exponent.  Underscore digit separators
are omitted; no input in this development uses them.  Only acceptance
matters to the claims, so the numeric value is not modelled. -/
def floatBodyParses (cs : List Char) : Bool :=
  let lower := cs.map Char.toLower
  if lower = "inf".data || lower = "infinity".data || lower = "nan".data then
    true
  else
    let intPart := lower.takeWhile Char.isDigit
    let rest1 := lower.dropWhile Char.isDigit
    let (fracDigits, rest2) :=
      match rest1 with
      | '.' :: tl => (tl.takeWhile Char.isDigit, tl.dropWhile Char.isDigit)
      | _ => ([], rest1)
    let expOk :=
      match rest2 with
      | [] => true
      | 'e' :: tl =>
          let tl2 := match tl with
            | '+' :: r => r
            | '-' :: r => r
            | r => r
          !tl2.isEmpty && tl2.all Char.isDigit
      | _ => false
    decide (0 < intPart.length + fracDigits.length) && expOk

/-- Python float(s) succeeds on s.  Strips whitespace, takes an optional
sign, then tests the body. -/
def pyFloatParses (s : String) : Bool :=
  let cs := (pyStrip s).data
  let body := match cs with
    | '+' :: tl => tl
    | '-' :: tl => tl
    | _ => cs
  !body.isEmpty && floatBodyParses body

/-! ## XML tree model (netex2lc/xml_utils.py)

An element carries a tag (with any namespace wrapper already part of the
tag string), an attribute list, optional text, and child elements, which
is the interface the code reads through lxml / ElementTree. -/

inductive Element where
  | mk (tag : String) (attrs : List (String × String)) (text : Option String)
      (children : List Element)

def Element.tag : Element → String
  | .mk t _ _ _ => t

def Element.attrs : Element → List (String × String)
  | .mk _ a _ _ => a

def Element.text : Element → Option String
  | .mk _ _ x _ => x

def Element.children : Element → List Element
  | .mk _ _ _ cs => cs

/-- Python elem.get(name): attribute lookup (attribute names are unique in
an XML element; the first match models the dict lookup). -/
def Element.get (e : Element) (name : String) : Option String :=
  (e.attrs.find? (fun p => p.1 = name)).map (fun p => p.2)

mutual

/-- Python elem.iter(): the element itself followed by all descendants in
document (depth-first, pre-) order. -/
def Element.iterAll : Element → List Element
  | .mk t a x cs => .mk t a x cs :: iterForest cs

/-- Document-order traversal of a list of sibling subtrees. -/
def iterForest : List Element → List Element
  | [] => []
  | c :: cs => c.iterAll ++ iterForest cs

end

/-- All proper descendants of an element in document order; this is the
node set selected by the XPath expression .//* that the lxml branches
use (the context node itself is not a descendant). -/
def Element.descendants (e : Element) : List Element :=
  iterForest e.children

/-- local_name from xml_utils.py: everything after the first closing brace
of the tag, or the tag itself when it contains none.  Mirrors
tag.split at the first closing brace, keeping part 1. -/
def local_name (tag : String) : String :=
  if tag.data.contains '\x7d' then
    ⟨(tag.data.dropWhile (fun c => c ≠ '\x7d')).tail⟩
  else
    tag

/-- iter_elements from xml_utils.py, lxml branch (lxml is a required
dependency per the test suite): all proper descendants whose local name
matches, in document order. -/
def iter_elements (root : Element) (name : String) : List Element :=
  root.descendants.filter (fun e => local_name e.tag = name)

/-- find_first from xml_utils.py, lxml XPath branch: first proper
descendant, in document order, whose local name is any of the candidates. -/
def find_first (e : Element) (names : List String) : Option Element :=
  e.descendants.find? (fun c => names.contains (local_name c.tag))

/-- find_first from xml_utils.py, iteration fallback branch: scans
elem.iter(), which starts at the element itself. -/
def find_first_iter (e : Element) (names : List String) : Option Element :=
  e.iterAll.find? (fun c => names.contains (local_name c.tag))

/-- find_text from xml_utils.py: text content of the first matching
descendant, stripped, with absent element, absent text, empty text and
whitespace-only text all collapsing to None. -/
def find_text (e : Element) (names : List String) : Option String :=
  match find_first e names with
  | none => none
  | some child =>
      match child.text with
      | none => none
      | some raw =>
          if raw = "" then none
          else
            let t := pyStrip raw
            if t = "" then none else some t

/-- find_ref from xml_utils.py: ref attribute, else id attribute, else
stripped text of the first matching descendant.  Unlike find_text, the
text fallback can return an empty string (the code returns the stripped
text without a final truthiness check). -/
def find_ref (e : Element) (names : List String) : Option String :=
  match find_first e names with
  | none => none
  | some child =>
      let ref := pyOrStr (child.get "ref") (child.get "id")
      if pyTruthy ref then ref
      else
        match child.text with
        | none => none
        | some raw => if raw = "" then none else some (pyStrip raw)

/-! ## Model of datetime.fromisoformat and date_for_uri
(netex2lc/netex_parser.py)

The parser calls the standard-library datetime.fromisoformat, modelled
here for the calendar-date forms the feeds use: an extended
YYYY-MM-DD or basic YYYYMMDD date, optionally followed by a single
separator character and a time HH[:MM[:SS[.frac]]] with an optional
[+-]HH[:MM[:SS[.frac]]] offset.  Week dates and compact time forms are
outside the model.  Only success or failure and the date components
matter downstream (strftime of the date), so times are validated but
not retained. -/

structure PyDate where
  year : Nat
  month : Nat
  day : Nat

deriving DecidableEq, Repr

def isLeapYear (y : Nat) : Bool :=
  y % 4 = 0 && (y % 100 ≠ 0 || y % 400 = 0)

def daysInMonth (y m : Nat) : Nat :=
  if m = 2 then (if isLeapYear y then 29 else 28)
  else if m = 4 || m = 6 || m = 9 || m = 11 then 30
  else 31

/-- Read exactly two ASCII digits, returning their value and the rest. -/
def parseDigit2 : List Char → Option (Nat × List Char)
  | a :: b :: rest =>
      if a.isDigit && b.isDigit then
        some ((a.toNat - 48) * 10 + (b.toNat - 48), rest)
      else none
  | _ => none

/-- Read exactly four ASCII digits. -/
def parseDigit4 (cs : List Char) : Option (Nat × List Char) :=
  match parseDigit2 cs with
  | none => none
  | some (hi, rest) =>
      match parseDigit2 rest with
      | none => none
      | some (lo, rest2) => some (hi * 100 + lo, rest2)

/-- Optional fractional part: a dot or comma must be followed by at least
one digit, all digits consumed. -/
def optionalFrac : List Char → Option (List Char)
  | c :: rest =>
      if c = '.' || c = ',' then
        let ds := rest.takeWhile Char.isDigit
        if ds.isEmpty then none else some (rest.dropWhile Char.isDigit)
      else some (c :: rest)
  | [] => some []

/-- A time of day HH[:MM[:SS[.frac]]] with range checks; returns the
unconsumed rest. -/
def timeCore (cs : List Char) : Option (List Char) := do
  let (h, r1) ← parseDigit2 cs
  if h ≥ 24 then none else
  match r1 with
  | ':' :: r2 => do
      let (m, r3) ← parseDigit2 r2
      if m ≥ 60 then none else
      match r3 with
      | ':' :: r4 => do
          let (s, r5) ← parseDigit2 r4
          if s ≥ 60 then none else optionalFrac r5
      | _ => some r3
  | _ => some r1

/-- An optional UTC offset closing the string. -/
def offsetPart : List Char → Bool
  | [] => true
  | c :: rest =>
      if c = '+' || c = '-' then
        match timeCore rest with
        | some [] => true
        | _ => false
      else false

def pyTimeParses (cs : List Char) : Bool :=
  match timeCore cs with
  | none => false
  | some rest => offsetPart rest

/-- The calendar date at the front of an ISO string: extended
YYYY-MM-DD or basic YYYYMMDD, with Python's range validation
(year at least 1, month 1 to 12, day fitting the month). -/
def parseIsoDate (cs : List Char) : Option (PyDate × List Char) := do
  let (y, r1) ← parseDigit4 cs
  let (m, d, rest) ← (do
    match r1 with
    | '-' :: r2 => do
        let (m, r3) ← parseDigit2 r2
        match r3 with
        | '-' :: r4 => do
            let (d, r5) ← parseDigit2 r4
            some (m, d, r5)
        | _ => none
    | _ => do
        let (md, r3) ← parseDigit4 r1
        some (md / 100, md % 100, r3) : Option (Nat × Nat × List Char))
  if y = 0 then none
  else if m = 0 || m > 12 then none
  else if d = 0 || d > daysInMonth y m then none
  else some (⟨y, m, d⟩, rest)

def datetime_fromisoformat (s : String) : Option PyDate :=
  match parseIsoDate s.data with
  | none => none
  | some (d, []) => some d
  | some (d, _sep :: timeCs) => if pyTimeParses timeCs then some d else none

def pad2 (n : Nat) : List Char :=
  [Char.ofNat (48 + n / 10 % 10), Char.ofNat (48 + n % 10)]

def pad4 (n : Nat) : List Char :=
  [Char.ofNat (48 + n / 1000 % 10), Char.ofNat (48 + n / 100 % 10),
   Char.ofNat (48 + n / 10 % 10), Char.ofNat (48 + n % 10)]

/-- strftime with the year-month-day format used for connection ids,
zero-padded as Python renders it for the four-digit years accepted by
the date grammar. -/
def strftimeYmd (d : PyDate) : String :=
  ⟨pad4 d.year ++ pad2 d.month ++ pad2 d.day⟩

/-- date_for_uri from netex_parser.py: normalize every Z to an explicit
zero offset, try the ISO parse and render the date; on parse failure
fall back to the first ten characters with the dashes removed, provided
the string has at least ten characters and its fifth character is a
dash; otherwise None. -/
def date_for_uri (time_str : String) : Option String :=
  if time_str = "" then none
  else
    let normalized := pyReplaceChar time_str 'Z' "+00:00"
    match datetime_fromisoformat normalized with
    | some d => some (strftimeYmd d)
    | none =>
        if 10 ≤ time_str.length ∧ time_str.data[4]? = some '-' then
          some ⟨(time_str.data.take 10).filter (fun c => c ≠ '-')⟩
        else none

/-! ## URI strategy (netex2lc/uri.py)

Templates are dictionaries from template key to format string; formatting
uses Python str.format_map, modelled for fields that are plain names
(no conversion, no format spec, no attribute or index access), the only
field form appearing in the default templates and in any configuration
the code documents.  Malformed inputs outside that form raise in Python
and are mapped to errors here; a field carrying a conversion or format
spec is outside the model and also mapped to an error, documented as a
model restriction.  Errors of the Python code (ValueError, KeyError,
IndexError) are collapsed into the single error channel the claims talk
about.  The regular-expression rewrite in the source only matches
templates containing a literal backslash directly after the
departureTime field name; no template within the modelled grammar
contains a backslash, where the rewrite is the identity, so it is
omitted. -/

def DEFAULT_TEMPLATES : List (String × String) :=
  [("stop_place", "{base_uri}/stops/{stop_id}"),
   ("quay", "{base_uri}/stops/{stop_place_id}/quays/{quay_id}"),
   ("line", "{base_uri}/lines/{line_id}"),
   ("service_journey", "{base_uri}/journeys/{service_journey_id}"),
   ("connection", "{base_uri}/connections/{departure_date}/{service_journey_id}/{sequence}"),
   ("operator", "{base_uri}/operators/{operator_id}")]

/-- Python dict.get on an association list with unique keys. -/
def dictGet (d : List (String × String)) (k : String) : Option String :=
  (d.find? (fun p => p.1 = k)).map (fun p => p.2)

structure URIStrategy where
  base_uri : String := "http://transport.example.org"
  templates : List (String × String) := DEFAULT_TEMPLATES

/-- Validation of a replacement-field body: the part before any
conversion or spec marker must be a plain non-numeric name without
attribute or index access, and conversions and specs are outside the
model. -/
def resolveField (vals : String → Option String) (field : List Char) :
    Except String (List Char) :=
  let name := field.takeWhile (fun c => c ≠ '!' && c ≠ ':')
  if name.isEmpty then
    .error "IndexError: automatic field numbering with a mapping"
  else if name.all Char.isDigit then
    .error "IndexError: positional field with a mapping"
  else if name ≠ field then
    .error "unsupported conversion or format spec"
  else if name.contains '.' || name.contains '[' then
    .error "unsupported attribute or index access"
  else
    match vals ⟨name⟩ with
    | some v => .ok v.data
    | none => .error ("KeyError: " ++ ⟨name⟩)

mutual

/-- Scanner of Python str.format_map over the template characters:
literal text, doubled-brace escapes, and replacement fields; an
unmatched brace is an error, as in Python. -/
def fmtScan (vals : String → Option String) : List Char → Except String (List Char)
  | [] => .ok []
  | c :: rest =>
      if c = '\x7b' then
        match rest with
        | c2 :: rest2 =>
            if c2 = '\x7b' then (fmtScan vals rest2).map (fun t => '\x7b' :: t)
            else fmtField vals [] (c2 :: rest2)
        | [] => .error "ValueError: single opening brace in format string"
      else if c = '\x7d' then
        match rest with
        | c2 :: rest2 =>
            if c2 = '\x7d' then (fmtScan vals rest2).map (fun t => '\x7d' :: t)
            else .error "ValueError: single closing brace in format string"
        | [] => .error "ValueError: single closing brace in format string"
      else (fmtScan vals rest).map (fun t => c :: t)

/-- Accumulates a replacement-field body up to its closing brace. -/
def fmtField (vals : String → Option String) (acc : List Char) :
    List Char → Except String (List Char)
  | [] => .error "ValueError: single opening brace in format string"
  | c :: rest =>
      if c = '\x7d' then
        match resolveField vals acc.reverse with
        | .error e => .error e
        | .ok v => (fmtScan vals rest).map (fun t => v ++ t)
      else fmtField vals (c :: acc) rest

end

/-- str.format_map on a template with a value lookup. -/
def formatMap (template : String) (vals : String → Option String) :
    Except String String :=
  (fmtScan vals template.data).map (fun cs => ⟨cs⟩)

/-- The merged value map of URIStrategy: the supplied values override the
two base-URI aliases. -/
def mergedVals (u : URIStrategy) (values : List (String × String)) :
    String → Option String :=
  fun k =>
    match dictGet values k with
    | some v => some v
    | none =>
        if k = "base_uri" || k = "baseUri" then some u.base_uri else none

/-- The format method of URIStrategy: resolve the template for the key
(configured value, else built-in default, else empty), fail on an empty
template, then substitute. -/
def URIStrategy.format (u : URIStrategy) (template_key : String)
    (values : List (String × String)) : Except String String :=
  let template := (dictGet u.templates template_key).getD
    ((dictGet DEFAULT_TEMPLATES template_key).getD "")
  if template = "" then
    .error ("Missing URI template for " ++ template_key)
  else
    formatMap template (mergedVals u values)

def URIStrategy.stop (u : URIStrategy) (stop_id : String) : Except String String :=
  u.format "stop_place"
    [("stop_id", stop_id), ("stopPlaceId", stop_id), ("stop_place_id", stop_id)]

def URIStrategy.line (u : URIStrategy) (line_id : String) : Except String String :=
  u.format "line" [("line_id", line_id), ("lineId", line_id)]

def URIStrategy.service_journey (u : URIStrategy) (service_journey_id : String) :
    Except String String :=
  u.format "service_journey"
    [("service_journey_id", service_journey_id),
     ("serviceJourneyId", service_journey_id)]

def URIStrategy.operator (u : URIStrategy) (operator_id : String) :
    Except String String :=
  u.format "operator"
    [("operator_id", operator_id), ("operatorId", operator_id)]

/-- The connection id; the Python sequence argument is an int rendered by
the formatter as its decimal string. -/
def URIStrategy.connection (u : URIStrategy) (departure_date : String)
    (service_journey_id : String) (sequence : Nat) : Except String String :=
  u.format "connection"
    [("departure_date", departure_date), ("departureTime", departure_date),
     ("service_journey_id", service_journey_id),
     ("serviceJourneyId", service_journey_id),
     ("sequence", toString sequence)]

/-- The default strategy, as constructed by URIStrategy() with the
dataclass defaults. -/
def defaultStrategy : URIStrategy := {}

deriving instance DecidableEq for Except

/-! ## NeTEx timetable extractor (netex2lc/netex_parser.py) -/

structure PassingTime where
  sequence : Option Nat
  stop_ref : Option String
  departure_time : Option String
  arrival_time : Option String

deriving DecidableEq, Repr

def PASSING_TIME_TAGS : List String := ["TimetabledPassingTime", "PassingTime"]

def STOP_REF_TAGS : List String :=
  ["StopPointRef", "ScheduledStopPointRef", "StopPointInJourneyPatternRef",
   "QuayRef", "StopPlaceRef"]

def DEPARTURE_TIME_TAGS : List String :=
  ["DepartureTime", "AimedDepartureTime", "ExpectedDepartureTime"]

def ARRIVAL_TIME_TAGS : List String :=
  ["ArrivalTime", "AimedArrivalTime", "ExpectedArrivalTime"]

/-- The in-loop body of extract_passing_times for one candidate element:
None when the element is skipped (wrong tag or falsy stop reference). -/
def passingTimeOfElement (child : Element) : Option PassingTime :=
  if !(PASSING_TIME_TAGS.contains (local_name child.tag)) then none
  else
    let sequence_text := find_text child ["SequenceNumber", "Order"]
    let sequence :=
      match sequence_text with
      | some s => if pyIsDigit s then some (digitsToNat s) else none
      | none => none
    let stop_ref := find_ref child STOP_REF_TAGS
    if !pyTruthy stop_ref then none
    else some
      { sequence := sequence
        stop_ref := stop_ref
        departure_time := find_text child DEPARTURE_TIME_TAGS
        arrival_time := find_text child ARRIVAL_TIME_TAGS }

/-- find_call_time from netex_parser.py: scan the call subtree for the
named wrapper element and return the first truthy time found inside any
of them. -/
def find_call_time (call : Element) (name : String) : Option String :=
  (call.iterAll.filter (fun child => local_name child.tag = name)).findSome?
    (fun child =>
      let value := find_text child
        ["Time", "ArrivalTime", "DepartureTime", "AimedArrivalTime",
         "AimedDepartureTime"]
      if pyTruthy value then value else none)

/-- The in-loop body of extract_call_times for one candidate element. -/
def callTimeOfElement (call : Element) : Option PassingTime :=
  if !(local_name call.tag == "Call") then none
  else
    let order_text := pyOrStr (call.get "order")
      (find_text call ["Order", "SequenceNumber"])
    let sequence :=
      match order_text with
      | some s => if pyIsDigit s then some (digitsToNat s) else none
      | none => none
    let stop_ref := find_ref call STOP_REF_TAGS
    if !pyTruthy stop_ref then none
    else some
      { sequence := sequence
        stop_ref := stop_ref
        departure_time := find_call_time call "Departure"
        arrival_time := find_call_time call "Arrival" }

/-- extract_call_times from netex_parser.py: walk the whole journey
subtree for Call elements. -/
def extract_call_times (service_journey : Element) : List PassingTime :=
  service_journey.iterAll.filterMap callTimeOfElement

/-- extract_passing_times from netex_parser.py: collect passing-time
records anywhere under the journey; when none are found fall back to
call-style records. -/
def extract_passing_times (service_journey : Element) : List PassingTime :=
  let times := service_journey.iterAll.filterMap passingTimeOfElement
  if times ≠ [] then times else extract_call_times service_journey

/-- The sort key of sort_passing_times (the Python expression sequence
or 0, which is the sequence when present and nonzero, and 0 otherwise). -/
def ptKey (pt : PassingTime) : Nat := pt.sequence.getD 0

/-- sort_passing_times from netex_parser.py: if every record carries a
sequence, sort ascending by it (Python sorted is a stable sort, and
mergeSort with a non-strict key comparison is the same stable sort);
otherwise return the list unchanged. -/
def sort_passing_times (passing_times : List PassingTime) : List PassingTime :=
  if passing_times.all (fun pt => pt.sequence.isSome) then
    passing_times.insertionSort (fun a b => ptKey a ≤ ptKey b)
  else passing_times

/-- The journey identifier: the id attribute, else the first of three
reference spellings, combined with Python or. -/
def journey_id (service_journey : Element) : Option String :=
  pyOrStr (service_journey.get "id")
    (find_text service_journey ["ServiceJourneyRef", "ServiceJourneyId", "Id"])

/-- The resolved departure time of a pair: the first visit's departure
time, falling back to its arrival time. -/
def resolvedDep (pt : PassingTime) : Option String :=
  pyOrStr pt.departure_time pt.arrival_time

/-- The resolved arrival time of a pair: the second visit's arrival time,
falling back to its departure time. -/
def resolvedArr (pt : PassingTime) : Option String :=
  pyOrStr pt.arrival_time pt.departure_time

/-- The guard of the pairing loop: a pair is skipped exactly when a
resolved time or a stop reference is falsy. -/
def pairBlocked (dep arr : PassingTime) : Bool :=
  !pyTruthy (resolvedDep dep) || !pyTruthy (resolvedArr arr) ||
  !pyTruthy dep.stop_ref || !pyTruthy arr.stop_ref

/-- A connection record as built by parse_netex (the fields of the
Connection dataclass that the timetable extractor populates; the
remaining dataclass fields keep their None defaults). -/
structure Connection where
  id : String
  departure_stop : String
  arrival_stop : String
  departure_time : String
  arrival_time : String
  route : Option String := none
  trip : Option String := none
  operator : Option String := none

deriving DecidableEq, Repr

/-- The Python conditional expression building an optional URI: call the
constructor only on a truthy reference, else None; errors propagate. -/
def optionalURI (ref : Option String) (f : String → Except String String) :
    Except String (Option String) :=
  match ref with
  | some s => if s ≠ "" then (f s).map some else .ok none
  | none => .ok none

/-- One iteration of the pairing loop of parse_netex at index idx: None
when the guard skips the pair, otherwise the built connection; URI
formatting errors propagate as raised exceptions. -/
def connection_for_pair (u : URIStrategy) (service_journey_id : String)
    (line_ref operator_ref : Option String) (idx : Nat)
    (dep arr : PassingTime) : Except String (Option Connection) :=
  let departure_time := resolvedDep dep
  let arrival_time := resolvedArr arr
  if !pyTruthy departure_time || !pyTruthy arrival_time then .ok none
  else if !pyTruthy dep.stop_ref || !pyTruthy arr.stop_ref then .ok none
  else
    let dt := departure_time.getD ""
    let departure_date := (date_for_uri dt).getD "00000000"
    (u.connection departure_date service_journey_id (idx + 1)).bind fun connection_id =>
    (u.stop (dep.stop_ref.getD "")).bind fun dstop =>
    (u.stop (arr.stop_ref.getD "")).bind fun astop =>
    (optionalURI line_ref u.line).bind fun route =>
    (u.service_journey service_journey_id).bind fun trip =>
    (optionalURI operator_ref u.operator).bind fun operator =>
    .ok (some
      { id := connection_id
        departure_stop := dstop
        arrival_stop := astop
        departure_time := dt
        arrival_time := arrival_time.getD ""
        route := route
        trip := some trip
        operator := operator })

/-- The pairing loop of parse_netex over the sorted visit list: index idx
pairs each visit with its successor; emitted connections are collected in
order and an error aborts the parse as a raised exception would. -/
def pair_loop (u : URIStrategy) (service_journey_id : String)
    (line_ref operator_ref : Option String) :
    Nat → List PassingTime → Except String (List Connection)
  | idx, dep :: arr :: rest =>
      (connection_for_pair u service_journey_id line_ref operator_ref
        idx dep arr).bind fun head? =>
      (pair_loop u service_journey_id line_ref operator_ref
        (idx + 1) (arr :: rest)).bind fun tail =>
      .ok (match head? with
        | some c => c :: tail
        | none => tail)
  | _, _ => .ok []

/-- The body of parse_netex for one ServiceJourney element: skip a
journey with no truthy identifier or no extracted visits, otherwise run
the pairing loop on the sorted visits. -/
def parse_service_journey (u : URIStrategy) (service_journey : Element) :
    Except String (List Connection) :=
  match journey_id service_journey with
  | none => .ok []
  | some sjid =>
      if sjid = "" then .ok []
      else
        let line_ref := find_ref service_journey ["LineRef"]
        let operator_ref := find_ref service_journey
          ["OperatorRef", "OperatorRefStructure"]
        let passing_times := extract_passing_times service_journey
        if passing_times = [] then .ok []
        else
          let sorted_times := sort_passing_times passing_times
          pair_loop u sjid line_ref operator_ref 0 sorted_times

/-- parse_netex over a list of already-parsed document roots (file
loading and XML parsing are outside the modelled core): all connections
of every ServiceJourney element of every document, in order. -/
def parse_netex (roots : List Element) (u : URIStrategy) :
    Except String (List Connection) :=
  roots.foldlM
    (fun acc root =>
      (iter_elements root "ServiceJourney").foldlM
        (fun acc2 sj => (parse_service_journey u sj).map (fun cs => acc2 ++ cs))
        acc)
    []

/-! ## SIRI-VM vehicle monitoring parser (siri2lc/siri_vm_parser.py)

Latitude, longitude and bearing are Python floats in the source; the
claims about them concern only presence, so a present field is modelled
by the source text that float() accepted (acceptance is pyFloatParses),
keeping the presence structure identical.  The monitored and
in-congestion fields are Python expressions of the form text and
text.lower() == literal, whose value is None when the text is None and
a bool otherwise, so they are modelled as Option Bool with none for
Python None. -/

structure VehiclePosition where
  vehicle_id : String
  recorded_at : String
  latitude : Option String
  longitude : Option String
  bearing : Option String
  speed : Option String
  delay : Option String
  progress_rate : Option String
  line_ref : Option String
  journey_ref : Option String
  operator_ref : Option String
  origin_name : Option String
  destination_name : Option String
  destination_ref : Option String
  monitored : Option Bool
  in_congestion : Option Bool
  current_stop_ref : Option String
  next_stop_ref : Option String
  occupancy : Option String

deriving DecidableEq, Repr

/-- The latitude or longitude half of the location block: the axis is set
only when its text is truthy and float() accepts it; a failing half
leaves only that axis absent. -/
def coordOfText (t : Option String) : Option String :=
  match t with
  | none => none
  | some s => if pyFloatParses s then some s else none

/-- The MonitoredVehicleJourney lookup loop of parse_vehicle_activity:
the first element of the activity subtree (the activity itself included,
though its own tag differs) with that local name. -/
def vmJourney (activity : Element) : Option Element :=
  activity.iterAll.find?
    (fun child => local_name child.tag = "MonitoredVehicleJourney")

/-- The vehicle identifier of parse_vehicle_activity: VehicleRef inside
the journey, else the monitoring-reference fallbacks on the activity. -/
def vmVehicleId (activity journey : Element) : Option String :=
  let v := find_text journey ["VehicleRef"]
  if pyTruthy v then v
  else find_text activity ["VehicleMonitoringRef", "ItemIdentifier"]

/-- The first VehicleLocation element of the journey subtree. -/
def vmLocation (journey : Element) : Option Element :=
  journey.iterAll.find? (fun l => local_name l.tag = "VehicleLocation")

/-- The journey reference: two direct spellings, else the
DatedVehicleJourneyRef inside the first FramedVehicleJourneyRef. -/
def vmJourneyRef (journey : Element) : Option String :=
  let jr := find_text journey ["DatedVehicleJourneyRef", "VehicleJourneyRef"]
  if pyTruthy jr then jr
  else
    match journey.iterAll.find?
        (fun r => local_name r.tag = "FramedVehicleJourneyRef") with
    | none => none
    | some framed => find_text framed ["DatedVehicleJourneyRef"]

/-- The next-stop reference from the first OnwardCall of the first
OnwardCalls block. -/
def vmNextStop (journey : Element) : Option String :=
  match journey.iterAll.find? (fun c => local_name c.tag = "OnwardCalls") with
  | none => none
  | some calls =>
      match calls.iterAll.find? (fun c => local_name c.tag = "OnwardCall") with
      | none => none
      | some call => find_ref call ["StopPointRef"]

/-- The monitored flag expression text and text.lower() == the word true:
Python None when the marker text is absent, a bool otherwise. -/
def vmFlag (journey : Element) (name : String) : Option Bool :=
  (find_text journey [name]).map (fun s => pyLower s == "true")

/-- parse_vehicle_activity from siri_vm_parser.py. -/
def parse_vehicle_activity (activity : Element) : Option VehiclePosition :=
  let recorded_at := find_text activity ["RecordedAtTime"]
  if !pyTruthy recorded_at then none
  else
    match vmJourney activity with
    | none => none
    | some journey =>
        let vehicle_id := vmVehicleId activity journey
        if !pyTruthy vehicle_id then none
        else
          some
            { vehicle_id := vehicle_id.getD ""
              recorded_at := recorded_at.getD ""
              latitude :=
                match vmLocation journey with
                | none => none
                | some loc => coordOfText (find_text loc ["Latitude"])
              longitude :=
                match vmLocation journey with
                | none => none
                | some loc => coordOfText (find_text loc ["Longitude"])
              bearing := coordOfText (find_text journey ["Bearing"])
              speed := none
              delay := find_text journey ["Delay"]
              progress_rate := find_text journey ["ProgressRate"]
              line_ref := find_ref journey ["LineRef"]
              journey_ref := vmJourneyRef journey
              operator_ref := find_ref journey ["OperatorRef"]
              origin_name := find_text journey ["OriginName"]
              destination_name := find_text journey ["DestinationName"]
              destination_ref := find_ref journey ["DestinationRef"]
              monitored := vmFlag journey "Monitored"
              in_congestion := vmFlag journey "InCongestion"
              current_stop_ref := none
              next_stop_ref := vmNextStop journey
              occupancy := find_text journey ["Occupancy", "OccupancyLevel"] }

/-- parse_siri_vm over an already-parsed document root: one record per
accepted VehicleActivity element (a returned dataclass instance is always
truthy, so the Python append condition keeps exactly the non-None
results). -/
def parse_siri_vm (root : Element) : List VehiclePosition :=
  (iter_elements root "VehicleActivity").filterMap parse_vehicle_activity

/-! ## SIRI-SX situation exchange parser, affected lines
(siri2lc/siri_sx_parser.py) -/

structure AffectedLine where
  line_ref : String
  line_name : Option String := none
  direction_ref : Option String := none

deriving DecidableEq, Repr

/-- The first pass of parse_affected_lines: one record per AffectedLine
wrapper element anywhere under the situation whose line reference is
truthy, with the richer name and direction fields. -/
def wrapperAffectedLines (situation : Element) : List AffectedLine :=
  situation.iterAll.filterMap (fun elem =>
    if local_name elem.tag = "AffectedLine" then
      let line_ref := find_ref elem ["LineRef"]
      if pyTruthy line_ref then
        some
          { line_ref := line_ref.getD ""
            line_name := find_text elem ["PublishedLineName", "LineName"]
            direction_ref := find_ref elem ["DirectionRef"] }
      else none
    else none)

/-- The appending step of the second pass once a candidate value is
read: keep the record only when both the raw and the stripped value are
truthy and no record with the same stripped reference has been
collected. -/
def addBareRef (lines : List AffectedLine) (ref? : Option String) :
    List AffectedLine :=
  match ref? with
  | none => lines
  | some ref =>
      if ref ≠ "" ∧ pyStrip ref ≠ "" then
        let r := pyStrip ref
        if lines.any (fun l => l.line_ref = r) then lines
        else lines ++ [{ line_ref := r }]
      else lines

/-- The body of the second pass for one candidate element: a bare LineRef
child contributes its ref attribute, else its text (the Python or of the
two), handed to the appending step. -/
def addBareLineRef (lines : List AffectedLine) (child : Element) :
    List AffectedLine :=
  if local_name child.tag = "LineRef" then
    addBareRef lines (pyOrStr (child.get "ref") child.text)
  else lines

/-- parse_affected_lines from siri_sx_parser.py: the wrapper pass, then
for every Affects element a scan of its subtree for bare LineRef
elements, appended with deduplication by reference string against
everything collected so far. -/
def parse_affected_lines (situation : Element) : List AffectedLine :=
  let lines := wrapperAffectedLines situation
  (situation.iterAll.filter
      (fun elem => local_name elem.tag = "Affects")).foldl
    (fun acc elem => elem.iterAll.foldl addBareLineRef acc)
    lines

/-- Adjacent pairs of a list, in order: the pairs the pairing loop of
parse_netex visits (index idx pairs element idx with element idx+1). -/
def adjPairs {α : Type} : List α → List (α × α)
  | a :: b :: rest => (a, b) :: adjPairs (b :: rest)
  | _ => []

/-- A strategy whose URI constructors never raise (the default templates
have this property); under it the pairing loop cannot abort. -/
def StrategyTotal (u : URIStrategy) : Prop :=
  (∀ d sj n, ∃ v, u.connection d sj n = .ok v) ∧
  (∀ s, ∃ v, u.stop s = .ok v) ∧
  (∀ s, ∃ v, u.line s = .ok v) ∧
  (∀ s, ∃ v, u.service_journey s = .ok v) ∧
  (∀ s, ∃ v, u.operator s = .ok v)

/-- The resolved departure time a visit contributes when truthy, as the
departure timestamp of an emitted connection whose pair starts at the
visit. -/
def truthyDep (pt : PassingTime) : Option String :=
  if pyTruthy (resolvedDep pt) then resolvedDep pt else none

def sjWitC1 : Element := .mk "ServiceJourney" [("id", "SJ1")] none [
  .mk "passingTimes" [] none [
    .mk "TimetabledPassingTime" [] none [
      .mk "StopPointRef" [("ref", "S1")] none [],
      .mk "DepartureTime" [] (some "2026-02-05T10:00:00Z") []],
    .mk "TimetabledPassingTime" [] none [
      .mk "StopPointRef" [("ref", "S2")] none [],
      .mk "ArrivalTime" [] (some "2026-02-05T10:30:00Z") []]]]

def sjWitC3 : Element := .mk "ServiceJourney" [("id", "SJ3")] none [
  .mk "passingTimes" [] none [
    .mk "TimetabledPassingTime" [] none [
      .mk "SequenceNumber" [] (some "1") [],
      .mk "StopPointRef" [("ref", "S1")] none [],
      .mk "DepartureTime" [] (some "2026-02-05T10:00:00Z") []],
    .mk "TimetabledPassingTime" [] none [
      .mk "SequenceNumber" [] (some "2") [],
      .mk "StopPointRef" [("ref", "S2")] none [],
      .mk "DepartureTime" [] (some "2026-02-05T10:30:00Z") [],
      .mk "ArrivalTime" [] (some "2026-02-05T10:25:00Z") []],
    .mk "TimetabledPassingTime" [] none [
      .mk "SequenceNumber" [] (some "3") [],
      .mk "StopPointRef" [("ref", "S3")] none [],
      .mk "ArrivalTime" [] (some "2026-02-05T11:00:00Z") []]]]

def sjCexC3 : Element := .mk "ServiceJourney" [("id", "SJ3X")] none [
  .mk "passingTimes" [] none [
    .mk "TimetabledPassingTime" [] none [
      .mk "SequenceNumber" [] (some "1") [],
      .mk "StopPointRef" [("ref", "S1")] none [],
      .mk "DepartureTime" [] (some "2026-02-05T11:00:00Z") []],
    .mk "TimetabledPassingTime" [] none [
      .mk "SequenceNumber" [] (some "2") [],
      .mk "StopPointRef" [("ref", "S2")] none [],
      .mk "DepartureTime" [] (some "2026-02-05T10:00:00Z") []],
    .mk "TimetabledPassingTime" [] none [
      .mk "SequenceNumber" [] (some "3") [],
      .mk "StopPointRef" [("ref", "S3")] none [],
      .mk "DepartureTime" [] (some "2026-02-05T12:00:00Z") []]]]

def actWitC4 : Element := .mk "VehicleActivity" [] none [
  .mk "RecordedAtTime" [] (some "2026-02-05T10:00:00Z") [],
  .mk "MonitoredVehicleJourney" [] none [
    .mk "VehicleRef" [] (some "V1") [],
    .mk "VehicleLocation" [] none [
      .mk "Latitude" [] (some "59.9") [],
      .mk "Longitude" [] (some "10.7") []]]]

def actCexC4 : Element := .mk "VehicleActivity" [] none [
  .mk "RecordedAtTime" [] (some "2026-02-05T10:00:00Z") [],
  .mk "MonitoredVehicleJourney" [] none [
    .mk "VehicleRef" [] (some "V1") [],
    .mk "VehicleLocation" [] none [
      .mk "Latitude" [] (some "59.9") [],
      .mk "Longitude" [] (some "not-a-number") []]]]

def actCexC5 : Element := .mk "VehicleActivity" [] none [
  .mk "RecordedAtTime" [] (some "2026-02-05T10:00:00Z") [],
  .mk "MonitoredVehicleJourney" [] none [
    .mk "VehicleRef" [] (some "V1") []]]

def actWitC9 : Element := .mk "VehicleActivity" [] none [
  .mk "RecordedAtTime" [] (some "2026-02-05T10:00:00Z") [],
  .mk "VehicleMonitoringRef" [] (some "VM1") []]

def eWitC10 : Element := .mk "Root" [] none [.mk "B" [] none []]

def eCexC10 : Element := .mk "A" [] none []

def sitWitC8 : Element := .mk "PtSituationElement" [] none [
  .mk "Affects" [] none [
    .mk "Networks" [] none [
      .mk "AffectedNetwork" [] none [
        .mk "AffectedLine" [] none [
          .mk "LineRef" [] (some "LINE1") [],
          .mk "PublishedLineName" [] (some "Line One") []]]]]]

/-- The YYYY-MM-DD shape the specification describes for the fallback:
four digits, a dash, two digits, a dash and two digits as the first ten
characters.  Modelled from the spec; the code checks only the length and
the dash at index four. -/
def matchesIsoDate10 (s : String) : Bool :=
  match s.data.take 10 with
  | [y1, y2, y3, y4, d1, m1, m2, d2, a1, a2] =>
      [y1, y2, y3, y4, m1, m2, a1, a2].all Char.isDigit &&
        d1 = '-' && d2 = '-'
  | _ => false

/-- The validity test of a replacement-field body within the modelled
format grammar, mirroring the checks of resolveField without the value
lookup. -/
def fieldNameOk (field : List Char) : Bool :=
  let name := field.takeWhile (fun c => c ≠ '!' && c ≠ ':')
  !name.isEmpty && !(name.all Char.isDigit) && decide (name = field) &&
    !(name.contains '.' || name.contains '[')

mutual

/-- Well-formedness of a template under the modelled format grammar:
balanced braces with valid plain-name fields; exactly the templates on
which fmtScan cannot raise a brace or field-form error. -/
def wfScan : List Char → Bool
  | [] => true
  | c :: rest =>
      if c = '\x7b' then
        match rest with
        | c2 :: rest2 =>
            if c2 = '\x7b' then wfScan rest2
            else wfFieldScan [] (c2 :: rest2)
        | [] => false
      else if c = '\x7d' then
        match rest with
        | c2 :: rest2 => if c2 = '\x7d' then wfScan rest2 else false
        | [] => false
      else wfScan rest

/-- Well-formedness of a field body being accumulated. -/
def wfFieldScan (acc : List Char) : List Char → Bool
  | [] => false
  | c :: rest =>
      if c = '\x7d' then fieldNameOk acc.reverse && wfScan rest
      else wfFieldScan (c :: acc) rest

end

mutual

/-- The placeholder names of a template, in order of appearance. -/
def scanNames : List Char → List String
  | [] => []
  | c :: rest =>
      if c = '\x7b' then
        match rest with
        | c2 :: rest2 =>
            if c2 = '\x7b' then scanNames rest2
            else fieldNames [] (c2 :: rest2)
        | [] => []
      else if c = '\x7d' then
        match rest with
        | c2 :: rest2 => if c2 = '\x7d' then scanNames rest2 else []
        | [] => []
      else scanNames rest

/-- The names contributed by a field being accumulated. -/
def fieldNames (acc : List Char) : List Char → List String
  | [] => []
  | c :: rest =>
      if c = '\x7d' then ⟨acc.reverse⟩ :: scanNames rest
      else fieldNames (c :: acc) rest

end

def badStrategy : URIStrategy :=
  { base_uri := "http://transport.example.org",
    templates := [("line", "\x7b")] }

/-! ## Theorems -/

theorem defaultStrategy_total : StrategyTotal defaultStrategy :=
  ⟨fun _ _ _ => ⟨_, rfl⟩, fun _ => ⟨_, rfl⟩, fun _ => ⟨_, rfl⟩,
   fun _ => ⟨_, rfl⟩, fun _ => ⟨_, rfl⟩⟩

theorem pyTruthy_iff {o : Option String} :
    pyTruthy o = true ↔ ∃ s, o = some s ∧ s ≠ "" := by
  cases o with
  | none => simp [pyTruthy]
  | some s => simp [pyTruthy]

theorem adjPairs_length {α : Type} : ∀ l : List α, (adjPairs l).length = l.length - 1
  | [] => rfl
  | [_] => rfl
  | a :: b :: rest => by
      have h := adjPairs_length (b :: rest)
      simp [adjPairs] at h ⊢
      omega

theorem adjPairs_mem {α : Type} : ∀ (l : List α) (p : α × α),
    p ∈ adjPairs l → p.1 ∈ l ∧ p.2 ∈ l
  | a :: b :: rest, p, hp => by
      simp only [adjPairs, List.mem_cons] at hp
      rcases hp with h | h
      · subst h; exact ⟨List.mem_cons_self .., List.mem_cons_of_mem _ (List.mem_cons_self ..)⟩
      · have := adjPairs_mem (b :: rest) p h
        exact ⟨List.mem_cons_of_mem _ this.1, List.mem_cons_of_mem _ this.2⟩

/-- The pairing-loop body skips exactly the blocked pairs and otherwise
emits a connection carrying the pair's resolved departure time, for any
strategy whose constructors are total. -/
theorem except_bind_ok {α β : Type} (v : α) (f : α → Except String β) :
    (Except.ok v).bind f = f v := rfl

theorem optionalURI_total (ref : Option String) (f : String → Except String String)
    (hf : ∀ s, ∃ v, f s = .ok v) : ∃ r, optionalURI ref f = .ok r := by
  rcases ref with _ | s
  · exact ⟨none, rfl⟩
  · by_cases hs : s = ""
    · subst hs; exact ⟨none, rfl⟩
    · obtain ⟨v, hv⟩ := hf s
      refine ⟨some v, ?_⟩
      simp [optionalURI, hs, hv, Except.map]

theorem connection_for_pair_spec (u : URIStrategy) (hu : StrategyTotal u)
    (sjid : String) (lr orf : Option String) (idx : Nat)
    (dep arr : PassingTime) :
    (pairBlocked dep arr = true →
      connection_for_pair u sjid lr orf idx dep arr = .ok none) ∧
    (pairBlocked dep arr = false →
      ∃ c, connection_for_pair u sjid lr orf idx dep arr = .ok (some c) ∧
        c.departure_time = (resolvedDep dep).getD "") := by
  obtain ⟨hconn, hstop, hline, hsj, hop⟩ := hu
  constructor
  · intro hb
    simp only [connection_for_pair]
    by_cases h12 : (!pyTruthy (resolvedDep dep) || !pyTruthy (resolvedArr arr)) = true
    · simp [h12]
    · have h34 : (!pyTruthy dep.stop_ref || !pyTruthy arr.stop_ref) = true := by
        simp only [pairBlocked, Bool.or_eq_true] at hb
        simp only [Bool.or_eq_true, not_or] at h12
        rcases hb with ((h | h) | h) | h <;> simp_all
      simp [h12, h34]
  · intro hb
    simp only [pairBlocked, Bool.or_eq_false_iff, Bool.not_eq_false'] at hb
    obtain ⟨⟨⟨h1, h2⟩, h3⟩, h4⟩ := hb
    simp only [connection_for_pair, h1, h2, h3, h4, Bool.not_true,
      Bool.or_self, Bool.false_eq_true, if_false]
    obtain ⟨v1, hv1⟩ := hconn
      ((date_for_uri ((resolvedDep dep).getD "")).getD "00000000") sjid (idx + 1)
    obtain ⟨v2, hv2⟩ := hstop (dep.stop_ref.getD "")
    obtain ⟨v3, hv3⟩ := hstop (arr.stop_ref.getD "")
    obtain ⟨v4, hv4⟩ := optionalURI_total lr u.line hline
    obtain ⟨v5, hv5⟩ := hsj sjid
    obtain ⟨v6, hv6⟩ := optionalURI_total orf u.operator hop
    rw [hv1, except_bind_ok, hv2, except_bind_ok, hv3, except_bind_ok,
      hv4, except_bind_ok, hv5, except_bind_ok, hv6, except_bind_ok]
    exact ⟨_, rfl, rfl⟩

theorem pyTruthy_resolvedDep_of_not_blocked {dep arr : PassingTime}
    (hb : pairBlocked dep arr = false) : pyTruthy (resolvedDep dep) = true := by
  simp only [pairBlocked, Bool.or_eq_false_iff, Bool.not_eq_false'] at hb
  exact hb.1.1.1

/-- The pairing loop succeeds under a total strategy, emits one connection
per unblocked adjacent pair, and the emitted departure timestamps form a
sublist of the truthy resolved departure times of the visits. -/
theorem pair_loop_spec (u : URIStrategy) (hu : StrategyTotal u) (sjid : String)
    (lr orf : Option String) :
    ∀ (pts : List PassingTime) (idx : Nat), ∃ l,
      pair_loop u sjid lr orf idx pts = .ok l ∧
      l.length = (adjPairs pts).countP (fun p => !pairBlocked p.1 p.2) ∧
      (l.map Connection.departure_time).Sublist (pts.filterMap truthyDep)
  | [], _ => ⟨[], rfl, rfl, by simp⟩
  | [_], _ => ⟨[], rfl, rfl, by simp⟩
  | dep :: arr :: rest, idx => by
      obtain ⟨tail, htail, hlen, hsub⟩ :=
        pair_loop_spec u hu sjid lr orf (arr :: rest) (idx + 1)
      by_cases hb : pairBlocked dep arr = true
      · have h := (connection_for_pair_spec u hu sjid lr orf idx dep arr).1 hb
        refine ⟨tail, ?_, ?_, ?_⟩
        · simp only [pair_loop, h, except_bind_ok, htail]
        · simp [adjPairs, List.countP_cons, hb, hlen]
        · rw [List.filterMap_cons]
          cases truthyDep dep with
          | none => exact hsub
          | some v => exact hsub.cons v
      · rw [Bool.not_eq_true] at hb
        obtain ⟨c, hc, hcdep⟩ :=
          (connection_for_pair_spec u hu sjid lr orf idx dep arr).2 hb
        obtain ⟨s, hs, hsne⟩ := pyTruthy_iff.mp (pyTruthy_resolvedDep_of_not_blocked hb)
        refine ⟨c :: tail, ?_, ?_, ?_⟩
        · simp only [pair_loop, hc, except_bind_ok, htail]
        · simp [adjPairs, List.countP_cons, hb, hlen]
        · rw [List.filterMap_cons]
          have hdt : truthyDep dep = some s := by
            simp [truthyDep, hs, pyTruthy, hsne]
          rw [hdt, List.map_cons]
          have : c.departure_time = s := by rw [hcdep, hs]; rfl
          rw [this]
          exact hsub.cons₂ s

theorem pyTruthy_pyOrStr (a b : Option String) :
    pyTruthy (pyOrStr a b) = (pyTruthy a || pyTruthy b) := by
  by_cases h : pyTruthy a = true
  · simp [pyOrStr, h]
  · rw [Bool.not_eq_true] at h
    simp [pyOrStr, h]

/-- C1: for every journey element processed by parse_netex, with pts the
stop-visit list after extraction and sorting of length N, the pairing
loop visits exactly the N-1 adjacent pairs of pts; each pair is emitted
as a connection exactly when it is not blocked (a blocked pair is one
whose resolved departure time, resolved arrival time, or either stop
reference is absent or empty); hence at most N-1 connections, with
equality when every visit carries a truthy stop reference and at least
one truthy time. -/
theorem pairing_attempts_and_emission (u : URIStrategy) (hu : StrategyTotal u)
    (sj : Element) (hid : pyTruthy (journey_id sj) = true) :
    ∃ l, parse_service_journey u sj = .ok l ∧
      (adjPairs (sort_passing_times (extract_passing_times sj))).length
        = (sort_passing_times (extract_passing_times sj)).length - 1 ∧
      l.length = (adjPairs (sort_passing_times (extract_passing_times sj))).countP
        (fun p => !pairBlocked p.1 p.2) ∧
      l.length ≤ (sort_passing_times (extract_passing_times sj)).length - 1 ∧
      ((∀ pt ∈ sort_passing_times (extract_passing_times sj),
          pyTruthy pt.stop_ref = true ∧
          (pyTruthy pt.departure_time = true ∨ pyTruthy pt.arrival_time = true)) →
        l.length = (sort_passing_times (extract_passing_times sj)).length - 1) := by
  obtain ⟨sjid, hsjid, hne⟩ := pyTruthy_iff.mp hid
  by_cases hpt : extract_passing_times sj = []
  · refine ⟨[], ?_, ?_, ?_, ?_, ?_⟩ <;>
      simp [parse_service_journey, hsjid, hne, hpt, sort_passing_times, adjPairs]
  · obtain ⟨l, hl, hlen, hsub⟩ := pair_loop_spec u hu sjid
      (find_ref sj ["LineRef"]) (find_ref sj ["OperatorRef", "OperatorRefStructure"])
      (sort_passing_times (extract_passing_times sj)) 0
    refine ⟨l, ?_, adjPairs_length _, hlen, ?_, ?_⟩
    · simp [parse_service_journey, hsjid, hne, hpt, hl]
    · rw [hlen, ← adjPairs_length (sort_passing_times (extract_passing_times sj))]
      exact List.countP_le_length _
    · intro hall
      rw [hlen, ← adjPairs_length (sort_passing_times (extract_passing_times sj))]
      rw [List.countP_eq_length]
      intro p hp
      obtain ⟨h1, h2⟩ := adjPairs_mem _ p hp
      obtain ⟨hs1, ht1⟩ := hall p.1 h1
      obtain ⟨hs2, ht2⟩ := hall p.2 h2
      simp only [pairBlocked, resolvedDep, resolvedArr, pyTruthy_pyOrStr,
        hs1, hs2, Bool.not_true, Bool.or_false, Bool.not_eq_true',
        Bool.not_eq_false', Bool.or_eq_true, Bool.not_or]
      rcases ht1 with h | h <;> rcases ht2 with h' | h' <;>
        simp [h, h', Bool.not_eq_true']

theorem pairing_attempts_and_emission_witness :
    ∃ l, parse_service_journey defaultStrategy sjWitC1 = .ok l ∧
      (adjPairs (sort_passing_times (extract_passing_times sjWitC1))).length
        = (sort_passing_times (extract_passing_times sjWitC1)).length - 1 ∧
      l.length = (adjPairs (sort_passing_times (extract_passing_times sjWitC1))).countP
        (fun p => !pairBlocked p.1 p.2) ∧
      l.length ≤ (sort_passing_times (extract_passing_times sjWitC1)).length - 1 ∧
      ((∀ pt ∈ sort_passing_times (extract_passing_times sjWitC1),
          pyTruthy pt.stop_ref = true ∧
          (pyTruthy pt.departure_time = true ∨ pyTruthy pt.arrival_time = true)) →
        l.length = (sort_passing_times (extract_passing_times sjWitC1)).length - 1) :=
  pairing_attempts_and_emission defaultStrategy defaultStrategy_total sjWitC1
    (by decide)

/-- C2: the sort step sorts ascending by sequence number (as a stable
permutation) exactly when every record carries a sequence number, and
returns the list unchanged, with no reordering at all, as soon as one
sequence number is absent. -/
theorem sort_all_or_nothing (pts : List PassingTime) :
    ((∀ pt ∈ pts, pt.sequence.isSome) →
      (sort_passing_times pts).Perm pts ∧
      (sort_passing_times pts).Pairwise (fun a b => ptKey a ≤ ptKey b)) ∧
    ((∃ pt ∈ pts, pt.sequence = none) → sort_passing_times pts = pts) := by
  constructor
  · intro hall
    have hcond : pts.all (fun pt => pt.sequence.isSome) = true := by
      rw [List.all_eq_true]; exact hall
    rw [sort_passing_times, if_pos hcond]
    constructor
    · exact List.perm_insertionSort _ pts
    · haveI : IsTotal PassingTime (fun a b => ptKey a ≤ ptKey b) :=
        ⟨fun a b => Nat.le_total (ptKey a) (ptKey b)⟩
      haveI : IsTrans PassingTime (fun a b => ptKey a ≤ ptKey b) :=
        ⟨fun _ _ _ hab hbc => Nat.le_trans hab hbc⟩
      exact List.sorted_insertionSort _ pts
  · rintro ⟨pt, hmem, hnone⟩
    have hcond : pts.all (fun pt => pt.sequence.isSome) = false := by
      rw [Bool.eq_false_iff, Ne, List.all_eq_true]
      intro h
      have := h pt hmem
      rw [hnone] at this
      simp at this
    rw [sort_passing_times, if_neg (by simp [hcond])]

theorem sort_all_or_nothing_witness :
    ((sort_passing_times
        [⟨some 2, some "A", none, none⟩, ⟨some 1, some "B", none, none⟩]).Perm
      [⟨some 2, some "A", none, none⟩, ⟨some 1, some "B", none, none⟩] ∧
      (sort_passing_times
        [⟨some 2, some "A", none, none⟩, ⟨some 1, some "B", none, none⟩]).Pairwise
        (fun a b => ptKey a ≤ ptKey b)) ∧
    sort_passing_times
        [⟨some 2, some "A", none, none⟩, ⟨none, some "B", none, none⟩] =
      [⟨some 2, some "A", none, none⟩, ⟨none, some "B", none, none⟩] :=
  ⟨(sort_all_or_nothing _).1 (by decide),
   (sort_all_or_nothing _).2 ⟨⟨none, some "B", none, none⟩, by decide, rfl⟩⟩

/-- C3 (amended): for a journey whose extraction yields at least two
visits, all carrying sequence numbers, the emitted connections carry
non-decreasing departure timestamps in emission order provided the
truthy resolved departure times of the sorted visit list are themselves
non-decreasing; without that proviso the code emits the document's
timestamps unchecked and the property can fail. -/
theorem departures_monotone (u : URIStrategy) (hu : StrategyTotal u)
    (sj : Element)
    (hseq : ∀ pt ∈ extract_passing_times sj, pt.sequence.isSome)
    (hN : 2 ≤ (extract_passing_times sj).length)
    (hmono : ((sort_passing_times (extract_passing_times sj)).filterMap
        truthyDep).Pairwise (fun a b => pyStrLe a b = true)) :
    ∃ l, parse_service_journey u sj = .ok l ∧
      (l.map Connection.departure_time).Pairwise
        (fun a b => pyStrLe a b = true) := by
  rcases hjid : journey_id sj with _ | sjid
  · exact ⟨[], by simp [parse_service_journey, hjid], by simp⟩
  · by_cases hne : sjid = ""
    · subst hne
      exact ⟨[], by simp [parse_service_journey, hjid], by simp⟩
    · by_cases hpt : extract_passing_times sj = []
      · exact ⟨[], by simp [parse_service_journey, hjid, hne, hpt], by simp⟩
      · obtain ⟨l, hl, _, hsub⟩ := pair_loop_spec u hu sjid
          (find_ref sj ["LineRef"])
          (find_ref sj ["OperatorRef", "OperatorRefStructure"])
          (sort_passing_times (extract_passing_times sj)) 0
        exact ⟨l, by simp [parse_service_journey, hjid, hne, hpt, hl],
          hmono.sublist hsub⟩

theorem departures_monotone_witness :
    ∃ l, parse_service_journey defaultStrategy sjWitC3 = .ok l ∧
      (l.map Connection.departure_time).Pairwise
        (fun a b => pyStrLe a b = true) :=
  departures_monotone defaultStrategy defaultStrategy_total sjWitC3
    (by decide) (by decide) (by decide)

/-- C3 counterexample: a journey with three visits, sequence numbers 1, 2
and 3 in order, whose departure times run 11:00, 10:00, 12:00; both
adjacent pairs are emitted and the two emitted departure timestamps
decrease, so the claim as stated fails on the code. -/
theorem departures_monotone_counterexample :
    (∀ pt ∈ extract_passing_times sjCexC3, pt.sequence.isSome) ∧
    2 ≤ (extract_passing_times sjCexC3).length ∧
    (parse_service_journey defaultStrategy sjCexC3).map
      (fun l => l.map Connection.departure_time) =
      .ok ["2026-02-05T11:00:00Z", "2026-02-05T10:00:00Z"] ∧
    ¬ (["2026-02-05T11:00:00Z", "2026-02-05T10:00:00Z"] : List String).Pairwise
        (fun a b => pyStrLe a b = true) := by decide

/-- C4 (amended): for every accepted vehicle activity, each coordinate is
present exactly when its own text is present and parses as a float,
independently of the other axis; a single unparseable half leaves only
that axis absent, so latitude and longitude are not both-or-neither. -/
theorem coordinates_independent (activity journey loc : Element)
    (h1 : pyTruthy (find_text activity ["RecordedAtTime"]) = true)
    (h2 : vmJourney activity = some journey)
    (h3 : pyTruthy (vmVehicleId activity journey) = true)
    (h4 : vmLocation journey = some loc) :
    ∃ vp, parse_vehicle_activity activity = some vp ∧
      vp.latitude = coordOfText (find_text loc ["Latitude"]) ∧
      vp.longitude = coordOfText (find_text loc ["Longitude"]) := by
  simp only [parse_vehicle_activity, h1, h2, h3, h4, Bool.not_true,
    Bool.false_eq_true, if_false]
  exact ⟨_, rfl, rfl, rfl⟩

theorem coordinates_independent_witness :
    ∃ vp, parse_vehicle_activity actWitC4 = some vp ∧
      vp.latitude = coordOfText (find_text
        (Element.mk "VehicleLocation" [] none [
          .mk "Latitude" [] (some "59.9") [],
          .mk "Longitude" [] (some "10.7") []]) ["Latitude"]) ∧
      vp.longitude = coordOfText (find_text
        (Element.mk "VehicleLocation" [] none [
          .mk "Latitude" [] (some "59.9") [],
          .mk "Longitude" [] (some "10.7") []]) ["Longitude"]) :=
  coordinates_independent actWitC4
    (.mk "MonitoredVehicleJourney" [] none [
      .mk "VehicleRef" [] (some "V1") [],
      .mk "VehicleLocation" [] none [
        .mk "Latitude" [] (some "59.9") [],
        .mk "Longitude" [] (some "10.7") []]])
    (.mk "VehicleLocation" [] none [
      .mk "Latitude" [] (some "59.9") [],
      .mk "Longitude" [] (some "10.7") []])
    (by decide) rfl (by decide) rfl

/-- C4 counterexample: a vehicle activity whose latitude text parses and
whose longitude text does not yields a returned record with latitude
present and longitude absent, refuting both-present-or-both-absent. -/
theorem coordinates_independent_counterexample :
    (parse_vehicle_activity actCexC4).map (fun p => (p.latitude, p.longitude)) =
      some (some "59.9", none) ∧
    (some "59.9" : Option String).isSome = true ∧
    (none : Option String).isSome = false := by decide

/-- C5: when the Monitored marker element is absent the accepted record's
monitored field is Python None (the expression text and lower-test short
circuits to None), not the boolean false the dataclass annotation and
the claim promise; likewise for in-congestion. -/
theorem monitored_none_when_marker_absent :
    (parse_vehicle_activity actCexC5).map
      (fun p => (p.monitored, p.in_congestion)) = some (none, none) ∧
    (none : Option Bool) ≠ some false := by decide

/-- C9: an activity with a truthy recorded-at timestamp but no
MonitoredVehicleJourney descendant is discarded even when a vehicle
identifier would be available through the monitoring-reference
fallbacks: the journey substructure is a hard requirement. -/
theorem activity_requires_journey (activity : Element)
    (h1 : pyTruthy (find_text activity ["RecordedAtTime"]) = true)
    (h2 : vmJourney activity = none)
    (h3 : pyTruthy (find_text activity
      ["VehicleMonitoringRef", "ItemIdentifier"]) = true) :
    parse_vehicle_activity activity = none := by
  simp [parse_vehicle_activity, h1, h2]

theorem activity_requires_journey_witness :
    parse_vehicle_activity actWitC9 = none :=
  activity_requires_journey actWitC9 (by decide) rfl (by decide)

/-- C10 (amended): the XPath branch and the iteration fallback branch of
find_first agree whenever the queried element's own tag matches no
candidate name; when it does match, the fallback returns the element
itself (its iter starts at the element) while the XPath branch searches
proper descendants only. -/
theorem find_first_branches (e : Element) (names : List String) :
    (names.contains (local_name e.tag) = false →
      find_first e names = find_first_iter e names) ∧
    (names.contains (local_name e.tag) = true →
      find_first_iter e names = some e) := by
  have hiter : e.iterAll = e :: e.descendants := by
    cases e; rfl
  constructor
  · intro h
    rw [find_first_iter, hiter, find_first]
    rw [List.find?_cons_of_neg]
    simpa using h
  · intro h
    rw [find_first_iter, hiter]
    rw [List.find?_cons_of_pos]
    simpa using h

theorem find_first_branches_witness :
    (find_first eWitC10 ["B"] = find_first_iter eWitC10 ["B"]) ∧
    (find_first_iter (Element.mk "B" [] none []) ["B"] =
      some (Element.mk "B" [] none [])) :=
  ⟨(find_first_branches eWitC10 ["B"]).1 (by decide),
   (find_first_branches (Element.mk "B" [] none []) ["B"]).2 (by decide)⟩

/-- C10 counterexample: on an element whose own tag matches a candidate,
the iteration fallback returns the element itself while the XPath branch
returns nothing, so the two implementations disagree. -/
theorem find_first_branches_counterexample :
    find_first_iter eCexC10 ["A"] = some eCexC10 ∧
    find_first eCexC10 ["A"] = none ∧
    some eCexC10 ≠ (none : Option Element) :=
  ⟨rfl, rfl, by simp⟩

theorem foldl_preserves {α β : Type} (P : α → Prop) (f : α → β → α)
    (h : ∀ a b, P a → P (f a b)) : ∀ (l : List β) (a), P a → P (l.foldl f a)
  | [], _, ha => ha
  | b :: l, a, ha => foldl_preserves P f h l (f a b) (h a b ha)

theorem addBareLineRef_filter (r : String) (W : List AffectedLine)
    (hW : W.countP (fun l => l.line_ref = r) = 1) (acc : List AffectedLine)
    (child : Element)
    (hacc : acc.filter (fun l => l.line_ref = r) =
      W.filter (fun l => l.line_ref = r)) :
    (addBareLineRef acc child).filter (fun l => l.line_ref = r) =
      W.filter (fun l => l.line_ref = r) := by
  unfold addBareLineRef
  by_cases htag : local_name child.tag = "LineRef"
  · rw [if_pos htag]
    rcases h : pyOrStr (child.get "ref") child.text with _ | ref
    · exact hacc
    · simp only [addBareRef]
      by_cases hcond : ref ≠ "" ∧ pyStrip ref ≠ ""
      · rw [if_pos hcond]
        by_cases hany : acc.any (fun l => l.line_ref = pyStrip ref) = true
        · rw [if_pos hany]
          exact hacc
        · rw [if_neg hany]
          rw [List.filter_append, hacc]
          have hne : ¬ pyStrip ref = r := by
            intro heq
            apply hany
            have hlen : (W.filter (fun l => decide (l.line_ref = r))).length = 1 := by
              rw [← List.countP_eq_length_filter]
              exact hW
            obtain ⟨x, hx⟩ : ∃ x, x ∈ acc.filter (fun l => decide (l.line_ref = r)) := by
              rw [hacc]
              have hpos : 0 < (W.filter (fun l => decide (l.line_ref = r))).length := by
                rw [hlen]
                exact Nat.one_pos
              rcases List.exists_mem_of_length_pos hpos with ⟨x, hx⟩
              exact ⟨x, hx⟩
            rw [List.mem_filter] at hx
            rw [List.any_eq_true]
            exact ⟨x, hx.1, by rw [heq]; exact hx.2⟩
          simp [hne]
      · rw [if_neg hcond]
        exact hacc
  · rw [if_neg htag]
    exact hacc

/-- C8: a line reference collected exactly once by the wrapper pass is
never duplicated by the bare-reference pass under an Affects element:
the deduplication guard keeps the result's records with that reference
exactly the single richer wrapper-derived record. -/
theorem affected_line_dedup (situation : Element) (r : String)
    (hW : (wrapperAffectedLines situation).countP (fun l => l.line_ref = r) = 1)
    (hbare : (situation.iterAll.any (fun a =>
      local_name a.tag == "Affects" && a.iterAll.any (fun c =>
        local_name c.tag == "LineRef" && Option.any
          (fun ref => decide (ref ≠ "") && (pyStrip ref == r))
          (pyOrStr (c.get "ref") c.text)))) = true) :
    (parse_affected_lines situation).countP (fun l => l.line_ref = r) = 1 ∧
    (parse_affected_lines situation).filter (fun l => l.line_ref = r) =
      (wrapperAffectedLines situation).filter (fun l => l.line_ref = r) := by
  have hstep : ∀ (acc : List AffectedLine) (elem : Element),
      acc.filter (fun l => l.line_ref = r) =
        (wrapperAffectedLines situation).filter (fun l => l.line_ref = r) →
      (elem.iterAll.foldl addBareLineRef acc).filter (fun l => l.line_ref = r) =
        (wrapperAffectedLines situation).filter (fun l => l.line_ref = r) := by
    intro acc elem hacc
    exact foldl_preserves
      (fun a => a.filter (fun l => l.line_ref = r) =
        (wrapperAffectedLines situation).filter (fun l => l.line_ref = r))
      addBareLineRef
      (fun a c ha =>
        addBareLineRef_filter r (wrapperAffectedLines situation) hW a c ha)
      elem.iterAll acc hacc
  have hfil : (parse_affected_lines situation).filter (fun l => l.line_ref = r) =
      (wrapperAffectedLines situation).filter (fun l => l.line_ref = r) := by
    simp only [parse_affected_lines]
    exact foldl_preserves
      (fun a => a.filter (fun l => l.line_ref = r) =
        (wrapperAffectedLines situation).filter (fun l => l.line_ref = r))
      (fun acc elem => elem.iterAll.foldl addBareLineRef acc)
      (fun a b ha => hstep a b ha)
      (situation.iterAll.filter (fun elem => local_name elem.tag = "Affects"))
      (wrapperAffectedLines situation) rfl
  refine ⟨?_, hfil⟩
  rw [List.countP_eq_length_filter, hfil, ← List.countP_eq_length_filter]
  exact hW

theorem affected_line_dedup_witness :
    (parse_affected_lines sitWitC8).countP
      (fun l => l.line_ref = "LINE1") = 1 ∧
    (parse_affected_lines sitWitC8).filter (fun l => l.line_ref = "LINE1") =
      (wrapperAffectedLines sitWitC8).filter (fun l => l.line_ref = "LINE1") :=
  affected_line_dedup sitWitC8 "LINE1" (by decide) (by decide)

/-- C6 (amended): the derived date is the strftime rendering of the
ISO-parsed normalized string when that parse succeeds; on parse failure
it is the first ten characters with dashes removed whenever the string
has at least ten characters and its fifth character is a dash (no
fuller YYYY-MM-DD validation); otherwise it is absent and the caller
substitutes the literal placeholder. -/
theorem date_for_uri_characterization (s : String) :
    (∀ d, datetime_fromisoformat (pyReplaceChar s 'Z' "+00:00") = some d →
      date_for_uri s = some (strftimeYmd d)) ∧
    (datetime_fromisoformat (pyReplaceChar s 'Z' "+00:00") = none →
      ((10 ≤ s.length ∧ s.data[4]? = some '-') →
        date_for_uri s = some ⟨(s.data.take 10).filter (fun c => c ≠ '-')⟩) ∧
      (¬ (10 ≤ s.length ∧ s.data[4]? = some '-') →
        date_for_uri s = none)) := by
  by_cases hs : s = ""
  · subst hs
    constructor
    · intro d hd
      rw [show datetime_fromisoformat (pyReplaceChar "" 'Z' "+00:00") = none
        from rfl] at hd
      cases hd
    · intro _
      constructor
      · intro hc
        have h0 : ("" : String).length = 0 := rfl
        omega
      · intro _
        rfl
  · constructor
    · intro d hd
      simp [date_for_uri, hs, hd]
    · intro hn
      constructor
      · intro hc
        simp [date_for_uri, hs, hn, hc]
      · intro hc
        simp [date_for_uri, hs, hn, hc]

/-- C6 counterexample: a string whose first ten characters are not a
YYYY-MM-DD date still takes the dash-stripping fallback, because the
code checks only the length and the dash at index four; the claim says
this input should fall through to the placeholder. -/
theorem date_for_uri_counterexample :
    datetime_fromisoformat (pyReplaceChar "abcd-ef-gh" 'Z' "+00:00") = none ∧
    matchesIsoDate10 "abcd-ef-gh" = false ∧
    date_for_uri "abcd-ef-gh" = some "abcdefgh" ∧
    date_for_uri "abcd-ef-gh" ≠ none := by decide

theorem date_for_uri_characterization_witness :
    date_for_uri "2026-02-05T10:00:00Z" =
      some (strftimeYmd ⟨2026, 2, 5⟩) ∧
    date_for_uri "2026-02-05x" =
      some ⟨(("2026-02-05x" : String).data.take 10).filter (fun c => c ≠ '-')⟩ ∧
    date_for_uri "garbage" = none :=
  ⟨(date_for_uri_characterization "2026-02-05T10:00:00Z").1 ⟨2026, 2, 5⟩
      (by decide),
   ((date_for_uri_characterization "2026-02-05x").2 (by decide)).1
      (by decide),
   ((date_for_uri_characterization "garbage").2 (by decide)).2
      (by decide)⟩

theorem isOk_map {α β : Type} (f : α → β) (x : Except String α) :
    (x.map f).isOk = x.isOk := by
  cases x <;> rfl

theorem resolveField_ok (vals : String → Option String) (field : List Char)
    (h : fieldNameOk field = true) :
    (resolveField vals field).isOk = true ↔
      (vals ⟨field⟩).isSome = true := by
  simp only [fieldNameOk, Bool.and_eq_true, Bool.not_eq_true',
    decide_eq_true_eq] at h
  obtain ⟨⟨⟨hne, hdig⟩, heq⟩, hbr⟩ := h
  rw [heq] at hne hdig hbr
  simp only [resolveField, heq]
  rw [if_neg (by simp [hne]), if_neg (by simp [hdig]), if_neg (by simp),
    if_neg (by simpa using hbr)]
  cases vals ⟨field⟩ <;> simp [Except.isOk, Except.toBool]

mutual

/-- On a well-formed template, formatting succeeds exactly when every
placeholder name resolves in the value map. -/
theorem fmtScan_ok_iff (vals : String → Option String) :
    ∀ cs, wfScan cs = true →
      ((fmtScan vals cs).isOk = true ↔
        ∀ n ∈ scanNames cs, (vals n).isSome = true)
  | [], _ => by simp [fmtScan, scanNames, Except.isOk, Except.toBool]
  | c :: rest, h => by
      by_cases hb : c = '\x7b'
      · subst hb
        cases rest with
        | nil => rw [wfScan.eq_def] at h; simp at h
        | cons c2 rest2 =>
            by_cases hb2 : c2 = '\x7b'
            · subst hb2
              have h' : wfScan rest2 = true := by
                rw [wfScan.eq_def] at h; simpa using h
              have ih := fmtScan_ok_iff vals rest2 h'
              rw [fmtScan.eq_def, scanNames.eq_def]
              simpa [isOk_map] using ih
            · have h' : wfFieldScan [] (c2 :: rest2) = true := by
                rw [wfScan.eq_def] at h; simpa [hb2] using h
              have ih := fmtField_ok_iff vals (c2 :: rest2) [] h'
              rw [fmtScan.eq_def, scanNames.eq_def]
              simpa [hb2] using ih
      · by_cases hc : c = '\x7d'
        · subst hc
          cases rest with
          | nil => rw [wfScan.eq_def] at h; simp at h
          | cons c2 rest2 =>
              by_cases hc2 : c2 = '\x7d'
              · subst hc2
                have h' : wfScan rest2 = true := by
                  rw [wfScan.eq_def] at h; simpa using h
                have ih := fmtScan_ok_iff vals rest2 h'
                rw [fmtScan.eq_def, scanNames.eq_def]
                simpa [isOk_map] using ih
              · rw [wfScan.eq_def] at h; simp [hc2] at h
        · have h' : wfScan rest = true := by
            rw [wfScan.eq_def] at h; simpa [hb, hc] using h
          have ih := fmtScan_ok_iff vals rest h'
          rw [fmtScan.eq_def, scanNames.eq_def]
          simpa [hb, hc, isOk_map] using ih

/-- Field counterpart of the success characterization. -/
theorem fmtField_ok_iff (vals : String → Option String) :
    ∀ cs acc, wfFieldScan acc cs = true →
      ((fmtField vals acc cs).isOk = true ↔
        ∀ n ∈ fieldNames acc cs, (vals n).isSome = true)
  | [], acc, h => by rw [wfFieldScan.eq_def] at h; simp at h
  | c :: rest, acc, h => by
      by_cases hc : c = '\x7d'
      · subst hc
        have h' : fieldNameOk acc.reverse = true ∧ wfScan rest = true := by
          rw [wfFieldScan.eq_def] at h; simpa using h
        have ihs := fmtScan_ok_iff vals rest h'.2
        have hres := resolveField_ok vals acc.reverse h'.1
        rw [fmtField.eq_def, fieldNames.eq_def]
        simp only [if_pos rfl, if_true, reduceIte]
        rcases hr : resolveField vals acc.reverse with e | v
        · rw [hr] at hres
          have hnone : (vals ⟨acc.reverse⟩).isSome = false := by
            rcases hs : vals ⟨acc.reverse⟩ with _ | w
            · rfl
            · rw [hs] at hres; simp [Except.isOk, Except.toBool] at hres
          simp [Except.isOk, Except.toBool, hnone]
        · rw [hr] at hres
          have hsome : (vals ⟨acc.reverse⟩).isSome = true := by
            simpa [Except.isOk, Except.toBool] using hres
          simp [isOk_map, ihs, hsome]
      · have h' : wfFieldScan (c :: acc) rest = true := by
          rw [wfFieldScan.eq_def] at h; simpa [hc] using h
        have ih := fmtField_ok_iff vals rest (c :: acc) h'
        rw [fmtField.eq_def, fieldNames.eq_def]
        simpa [hc] using ih

end

/-- C7 (amended): over templates within the well-formed format grammar,
resolution raises exactly when the resolved template string is empty or
some placeholder name is absent from the supplied values merged with the
two base-URI aliases; outside the grammar a malformed template (such as
an unmatched brace) also raises even though it is non-empty and has no
missing placeholder. -/
theorem format_error_characterization (u : URIStrategy) (key : String)
    (values : List (String × String))
    (hwf : wfScan ((dictGet u.templates key).getD
      ((dictGet DEFAULT_TEMPLATES key).getD "")).data = true) :
    (u.format key values).isOk = true ↔
      ((dictGet u.templates key).getD
          ((dictGet DEFAULT_TEMPLATES key).getD "") ≠ "" ∧
        ∀ n ∈ scanNames ((dictGet u.templates key).getD
            ((dictGet DEFAULT_TEMPLATES key).getD "")).data,
          (mergedVals u values n).isSome = true) := by
  by_cases ht : (dictGet u.templates key).getD
      ((dictGet DEFAULT_TEMPLATES key).getD "") = ""
  · simp [URIStrategy.format, ht, Except.isOk, Except.toBool]
  · rw [URIStrategy.format]
    simp only [if_neg ht, formatMap, isOk_map]
    rw [fmtScan_ok_iff (mergedVals u values) _ hwf]
    simp [ht]

/-- C7 counterexample: a configured template consisting of one opening
brace is non-empty and contains no placeholder, yet resolution raises
(Python raises ValueError from str.format_map), so raising is not
characterized by empty template or missing placeholder alone. -/
theorem format_error_counterexample :
    dictGet badStrategy.templates "line" = some "\x7b" ∧
    ("\x7b" : String) ≠ "" ∧
    scanNames ("\x7b" : String).data = [] ∧
    (badStrategy.format "line" [("line_id", "L1"), ("lineId", "L1")]).isOk
      = false := by decide

theorem format_error_characterization_witness :
    (defaultStrategy.format "stop_place" [("stop_id", "S1")]).isOk = true ↔
      ((dictGet defaultStrategy.templates "stop_place").getD
          ((dictGet DEFAULT_TEMPLATES "stop_place").getD "") ≠ "" ∧
        ∀ n ∈ scanNames ((dictGet defaultStrategy.templates "stop_place").getD
            ((dictGet DEFAULT_TEMPLATES "stop_place").getD "")).data,
          (mergedVals defaultStrategy [("stop_id", "S1")] n).isSome = true) :=
  format_error_characterization defaultStrategy "stop_place"
    [("stop_id", "S1")] (by decide)
